import Mathlib

/-
Verification of the clinical scoring engine (backend/app/clinical_modules/calculators.py)
and the algorithm graph read operations (backend/app/crud.py, backend/app/main.py).

Modelling conventions:
- Python floats are modelled as exact rationals (ℚ); Python ints as ℤ.
- A Python function that may raise ValueError is modelled as returning
  Except String CalculatorResult, with the raised message as the error value.
- Python f-string rendering of the quantities that appear in the verified
  interpretation strings is modelled by toString on ℤ and by fmtTenths /
  pyFloatStr for the one-decimal float renderings those strings contain
  (every float actually rendered by this code is an exact multiple of 0.1,
  so the rational model agrees with Python's float repr and % .1f formatting
  on all reachable values).
- Dynamically typed arguments (the boolean flags, which Python never type
  checks) are modelled by PyVal together with Python truthiness.
- The SQLAlchemy session is modelled as a record of lists kept in insertion
  order; query(...).filter(...) keeps that order, .first() takes the head,
  .order_by(k) is a stable sort on k. Object mutation plus commit on the
  row returned by a .first() query is modelled by rewriting the first
  matching list entry. Entity fields that none of the verified operations
  read or write (titles, colours, payload text, uuids, ...) are omitted.
-/

/-- Risk levels, from class RiskLevel (calculators.py lines 10-15). -/
inductive RiskLevel where
  | LOW
  | MODERATE
  | HIGH
  | SEVERE
deriving DecidableEq, Repr

/-- The Spanish display value of a risk level (the Enum value strings). -/
def RiskLevel.value : RiskLevel → String
  | .LOW => "Bajo"
  | .MODERATE => "Moderado"
  | .HIGH => "Alto"
  | .SEVERE => "Severo"

/-- Result record, from class CalculatorResult (calculators.py lines 18-32). -/
structure CalculatorResult where
  score : ℚ
  risk_level : RiskLevel
  interpretation : String
  recommendations : String
deriving DecidableEq, Repr

/-- Renders t tenths as a one-decimal string, e.g. fmtTenths 80 = "8.0".
For t ≥ 0 this is exactly Python's repr / one-decimal formatting of the
float t/10 whenever that float is reached by exact tenth-valued arithmetic. -/
def fmtTenths (t : ℤ) : String :=
  toString (t / 10) ++ "." ++ toString (t % 10)

/-- Python str() of a float that is an exact multiple of one tenth. -/
def pyFloatStr (q : ℚ) : String :=
  fmtTenths (q.num * 10 / (q.den : ℤ))

/-- From _validate_numeric_range (calculators.py lines 35-38): raises
ValueError with the field name and both bounds when the value is outside
the inclusive range. All call sites pass integer literal bounds, so the
bounds are modelled as ℤ and rendered with toString as Python does. -/
def validate_numeric_range (value : ℚ) (min_val max_val : ℤ) (name : String) :
    Except String Unit :=
  if value < (min_val : ℚ) ∨ value > (max_val : ℚ) then
    Except.error (name ++ " debe estar entre " ++ toString min_val ++ " y " ++ toString max_val)
  else
    Except.ok ()

/-- The CURB-65 bucket step (calculators.py lines 92-111): the returned
record for a given score. -/
def curb65Result (score : ℤ) : CalculatorResult :=
  if score = 0 then
    ⟨(score : ℚ), RiskLevel.LOW, "Riesgo bajo de mortalidad (0.7%)",
      "Manejo ambulatorio. Considerar tratamiento oral."⟩
  else if score = 1 then
    ⟨(score : ℚ), RiskLevel.LOW, "Riesgo bajo de mortalidad (2.1%)",
      "Manejo ambulatorio. Considerar tratamiento oral."⟩
  else if score = 2 then
    ⟨(score : ℚ), RiskLevel.MODERATE, "Riesgo moderado de mortalidad (9.2%)",
      "Considerar hospitalización. Tratamiento antibiótico endovenoso."⟩
  else if score = 3 then
    ⟨(score : ℚ), RiskLevel.HIGH, "Riesgo alto de mortalidad (14.5%)",
      "Hospitalización recomendada. Considerar UCI si hay deterioro."⟩
  else
    ⟨(score : ℚ), RiskLevel.SEVERE, "Riesgo muy alto de mortalidad (40%)",
      "Hospitalización urgente. Considerar manejo en UCI."⟩

/-- The CURB-65 indicator sum (calculators.py lines 69-89), written as the
sum the sequential score increments compute. -/
def curb65Score (confusion : Bool) (urea : ℚ)
    (respiratory_rate blood_pressure_systolic blood_pressure_diastolic age : ℤ) : ℤ :=
  (if confusion then 1 else 0) +
  (if urea > 19 then 1 else 0) +
  (if respiratory_rate ≥ 30 then 1 else 0) +
  (if blood_pressure_systolic < 90 ∨ blood_pressure_diastolic ≤ 60 then 1 else 0) +
  (if age ≥ 65 then 1 else 0)

/-- calculate_curb65 (calculators.py lines 40-113). -/
def calculate_curb65 (confusion : Bool) (urea : ℚ)
    (respiratory_rate blood_pressure_systolic blood_pressure_diastolic age : ℤ) :
    Except String CalculatorResult := do
  validate_numeric_range urea 0 500 "Urea"
  validate_numeric_range (respiratory_rate : ℚ) 0 100 "Frecuencia respiratoria"
  validate_numeric_range (blood_pressure_systolic : ℚ) 40 300 "Presión arterial sistólica"
  validate_numeric_range (blood_pressure_diastolic : ℚ) 20 200 "Presión arterial diastólica"
  validate_numeric_range (age : ℚ) 0 150 "Edad"
  pure (curb65Result (curb65Score confusion urea respiratory_rate
    blood_pressure_systolic blood_pressure_diastolic age))

/-- The Glasgow bucket step (calculators.py lines 201-212). -/
def glasgowResult (score : ℤ) : CalculatorResult :=
  if score ≥ 13 then
    ⟨(score : ℚ), RiskLevel.LOW, "Lesión cerebral leve (GCS " ++ toString score ++ ")",
      "Observación. Monitoreo neurológico rutinario."⟩
  else if score ≥ 9 then
    ⟨(score : ℚ), RiskLevel.MODERATE, "Lesión cerebral moderada (GCS " ++ toString score ++ ")",
      "Hospitalización. Monitoreo neurológico frecuente. Considerar TC."⟩
  else
    ⟨(score : ℚ), RiskLevel.SEVERE, "Lesión cerebral severa (GCS " ++ toString score ++ ")",
      "UCI. Manejo de vía aérea. TC urgente. Monitoreo PIC."⟩

/-- calculate_glasgow_coma_scale (calculators.py lines 174-214): inline
range checks raising ValueError, then the sum of the three components. -/
def calculate_glasgow_coma_scale (eye_opening verbal_response motor_response : ℤ) :
    Except String CalculatorResult :=
  if ¬(1 ≤ eye_opening ∧ eye_opening ≤ 4) then
    Except.error "Apertura ocular debe estar entre 1-4"
  else if ¬(1 ≤ verbal_response ∧ verbal_response ≤ 5) then
    Except.error "Respuesta verbal debe estar entre 1-5"
  else if ¬(1 ≤ motor_response ∧ motor_response ≤ 6) then
    Except.error "Respuesta motora debe estar entre 1-6"
  else
    Except.ok (glasgowResult (eye_opening + verbal_response + motor_response))

/-- The CHA2DS2-VASc point sum (calculators.py lines 313-330), in the order
the sequential increments are applied. -/
def chadsScore (congestive_heart_failure hypertension : Bool) (age : ℤ)
    (diabetes stroke_tia_history vascular_disease sex_female : Bool) : ℤ :=
  (if congestive_heart_failure then 1 else 0) +
  (if hypertension then 1 else 0) +
  (if age ≥ 75 then 2 else if age ≥ 65 then 1 else 0) +
  (if diabetes then 1 else 0) +
  (if stroke_tia_history then 2 else 0) +
  (if vascular_disease then 1 else 0) +
  (if sex_female then 1 else 0)

/-- The CHA2DS2-VASc bucket step (calculators.py lines 333-348). The high
bucket renders 3.2 + (score-3)*0.8 to one decimal; in tenths that value is
32 + (score-3)*8, and fmtTenths agrees with Python's float formatting on
every reachable score (3..9). -/
def chadsResult (score : ℤ) : CalculatorResult :=
  if score = 0 then
    ⟨(score : ℚ), RiskLevel.LOW,
      "Riesgo muy bajo de stroke (CHA2DS2-VASc " ++ toString score ++ "). Riesgo anual: 0%",
      "No anticoagulación. Considerar aspirina."⟩
  else if score = 1 then
    ⟨(score : ℚ), RiskLevel.LOW,
      "Riesgo bajo de stroke (CHA2DS2-VASc " ++ toString score ++ "). Riesgo anual: 1.3%",
      "Considerar anticoagulación oral o aspirina."⟩
  else if score = 2 then
    ⟨(score : ℚ), RiskLevel.MODERATE,
      "Riesgo moderado de stroke (CHA2DS2-VASc " ++ toString score ++ "). Riesgo anual: 2.2%",
      "Anticoagulación oral recomendada."⟩
  else
    ⟨(score : ℚ), RiskLevel.HIGH,
      "Riesgo alto de stroke (CHA2DS2-VASc " ++ toString score ++ "). Riesgo anual: " ++
        fmtTenths (32 + (score - 3) * 8) ++ "%",
      "Anticoagulación oral fuertemente recomendada."⟩

/-- calculate_chads2_vasc (calculators.py lines 286-350). -/
def calculate_chads2_vasc (congestive_heart_failure hypertension : Bool) (age : ℤ)
    (diabetes stroke_tia_history vascular_disease sex_female : Bool) :
    Except String CalculatorResult := do
  validate_numeric_range (age : ℚ) 0 150 "Edad"
  pure (chadsResult (chadsScore congestive_heart_failure hypertension age
    diabetes stroke_tia_history vascular_disease sex_female))

/-- A dynamically typed Python value, for arguments the code never type
checks (the boolean clinical flags). -/
inductive PyVal where
  | pynone
  | pybool (b : Bool)
  | pyint (n : ℤ)
  | pyfloat (q : ℚ)
  | pystr (s : String)
deriving DecidableEq, Repr

/-- Python truthiness, as used by an if statement on a flag argument. -/
def PyVal.truthy : PyVal → Bool
  | .pynone => false
  | .pybool b => b
  | .pyint n => n != 0
  | .pyfloat q => q != 0
  | .pystr s => s != ""

/-- The Wells PE bucket step (calculators.py lines 158-169); the score is
interpolated into the texts with Python float str. -/
def wellsResult (score : ℚ) : CalculatorResult :=
  if score ≤ 4 then
    ⟨score, RiskLevel.LOW,
      "Probabilidad baja de EP (" ++ pyFloatStr score ++ " puntos). Probabilidad < 12%",
      "Considerar dímero D. Si negativo, EP poco probable."⟩
  else if score ≤ 6 then
    ⟨score, RiskLevel.MODERATE,
      "Probabilidad moderada de EP (" ++ pyFloatStr score ++ " puntos). Probabilidad 12-37%",
      "Realizar estudios de imagen (AngioTC o gammagrafía)."⟩
  else
    ⟨score, RiskLevel.HIGH,
      "Probabilidad alta de EP (" ++ pyFloatStr score ++ " puntos). Probabilidad > 37%",
      "AngioTC urgente. Considerar anticoagulación empírica si hay retraso."⟩

/-- calculate_wells_pe (calculators.py lines 116-171). The seven flags are
taken as dynamic Python values: the function only ever applies an if
statement (truthiness) to each of them, performs no type check and no
range validation, and therefore has no failure path at all. -/
def calculate_wells_pe (clinical_signs_dvt pe_likely heart_rate_over_100
    immobilization_surgery previous_pe_dvt hemoptysis malignancy : PyVal) :
    Except String CalculatorResult :=
  Except.ok (wellsResult (
    (if clinical_signs_dvt.truthy then 3 else 0) +
    (if pe_likely.truthy then 3 else 0) +
    (if heart_rate_over_100.truthy then 3/2 else 0) +
    (if immobilization_surgery.truthy then 3/2 else 0) +
    (if previous_pe_dvt.truthy then 3/2 else 0) +
    (if hemoptysis.truthy then 1 else 0) +
    (if malignancy.truthy then 1 else 0)))

/-- APACHE II temperature ladder (calculators.py lines 377-383). -/
def apacheTempPoints (temperature : ℚ) : ℤ :=
  if temperature ≥ 41 ∨ temperature ≤ 29.9 then 4
  else if temperature ≥ 39 ∨ temperature ≤ 31.9 then 3
  else if temperature ≥ 38.5 ∨ temperature ≤ 33.9 then 1
  else 0

/-- APACHE II mean arterial pressure ladder (calculators.py lines 385-391). -/
def apacheMapPoints (mean_arterial_pressure : ℚ) : ℤ :=
  if mean_arterial_pressure ≥ 160 ∨ mean_arterial_pressure ≤ 49 then 4
  else if mean_arterial_pressure ≥ 130 ∨ mean_arterial_pressure ≤ 69 then 2
  else if mean_arterial_pressure ≤ 109 then 2
  else 0

/-- APACHE II heart rate ladder (calculators.py lines 393-399). -/
def apacheHrPoints (heart_rate : ℤ) : ℤ :=
  if heart_rate ≥ 180 ∨ heart_rate ≤ 39 then 4
  else if heart_rate ≥ 140 ∨ heart_rate ≤ 54 then 2
  else if heart_rate ≥ 110 ∨ heart_rate ≤ 69 then 1
  else 0

/-- APACHE II age ladder (calculators.py lines 405-413). -/
def apacheAgePoints (age : ℤ) : ℤ :=
  if age ≥ 75 then 6
  else if age ≥ 65 then 5
  else if age ≥ 55 then 3
  else if age ≥ 45 then 2
  else 0

/-- The APACHE II bucket step (calculators.py lines 419-435). -/
def apacheResult (score : ℤ) : CalculatorResult :=
  if score ≤ 4 then
    ⟨(score : ℚ), RiskLevel.LOW,
      "Riesgo bajo de mortalidad (APACHE II " ++ toString score ++ "). Mortalidad estimada: <4%",
      "Paciente estable. Monitoreo rutinario."⟩
  else if score ≤ 14 then
    ⟨(score : ℚ), RiskLevel.MODERATE,
      "Riesgo moderado de mortalidad (APACHE II " ++ toString score ++ "). Mortalidad estimada: 8-15%",
      "Monitoreo cercano. Considerar cuidados intermedios."⟩
  else if score ≤ 24 then
    ⟨(score : ℚ), RiskLevel.HIGH,
      "Riesgo alto de mortalidad (APACHE II " ++ toString score ++ "). Mortalidad estimada: 15-25%",
      "UCI recomendada. Soporte intensivo."⟩
  else
    ⟨(score : ℚ), RiskLevel.SEVERE,
      "Riesgo muy alto de mortalidad (APACHE II " ++ toString score ++ "). Mortalidad estimada: >40%",
      "UCI. Soporte vital máximo. Considerar pronóstico."⟩

/-- The APACHE II total (calculators.py lines 375-417): the sequential
score accumulation, with the Glasgow component contributing exactly
15 - glasgow_coma_scale points and the chronic-health flag 5 points. -/
def apacheScore (temperature mean_arterial_pressure : ℚ)
    (heart_rate glasgow_coma_scale age : ℤ) (chronic_health : Bool) : ℤ :=
  apacheTempPoints temperature +
  apacheMapPoints mean_arterial_pressure +
  apacheHrPoints heart_rate +
  (15 - glasgow_coma_scale) +
  apacheAgePoints age +
  (if chronic_health then 5 else 0)

/-- calculate_apache_ii (calculators.py lines 353-437). Note: the function
performs no validate call on any of its inputs, and eight of its fourteen
parameters (respiratory_rate, oxygenation, arterial_ph, sodium, potassium,
creatinine, hematocrit, white_blood_cells) are accepted but never read. -/
def calculate_apache_ii (temperature mean_arterial_pressure : ℚ)
    (heart_rate respiratory_rate : ℤ)
    (oxygenation arterial_ph sodium potassium creatinine hematocrit white_blood_cells : ℚ)
    (glasgow_coma_scale age : ℤ) (chronic_health : Bool) :
    Except String CalculatorResult :=
  Except.ok (apacheResult (apacheScore temperature mean_arterial_pressure
    heart_rate glasgow_coma_scale age chronic_health))

/-- The NIHSS bucket step (calculators.py lines 261-281). -/
def nihssResult (score : ℤ) : CalculatorResult :=
  if score = 0 then
    ⟨(score : ℚ), RiskLevel.LOW, "Sin síntomas de stroke (NIHSS " ++ toString score ++ ")",
      "Paciente sin déficit neurológico detectable."⟩
  else if score ≤ 4 then
    ⟨(score : ℚ), RiskLevel.LOW, "Stroke menor (NIHSS " ++ toString score ++ ")",
      "Stroke leve. Considerar trombolisis según criterios."⟩
  else if score ≤ 15 then
    ⟨(score : ℚ), RiskLevel.MODERATE, "Stroke moderado (NIHSS " ++ toString score ++ ")",
      "Stroke moderado. Candidato para trombolisis/trombectomía."⟩
  else if score ≤ 20 then
    ⟨(score : ℚ), RiskLevel.HIGH, "Stroke moderado-severo (NIHSS " ++ toString score ++ ")",
      "Stroke severo. Trombolisis/trombectomía urgente si es candidato."⟩
  else
    ⟨(score : ℚ), RiskLevel.SEVERE, "Stroke severo (NIHSS " ++ toString score ++ ")",
      "Stroke muy severo. Evaluar tratamiento agresivo vs. cuidados paliativos."⟩

/-- calculate_nihss (calculators.py lines 217-283): the plain sum of the
fifteen components, with no validation of any input. -/
def calculate_nihss (consciousness orientation commands gaze visual_fields
    facial_palsy motor_arm_left motor_arm_right motor_leg_left motor_leg_right
    ataxia sensory language dysarthria extinction : ℤ) :
    Except String CalculatorResult :=
  Except.ok (nihssResult (consciousness + orientation + commands + gaze + visual_fields +
    facial_palsy + motor_arm_left + motor_arm_right + motor_leg_left +
    motor_leg_right + ataxia + sensory + language + dysarthria + extinction))

/-
Algorithm graph model (backend/app/models.py, crud.py, main.py): the
entities and the read/counter operations the verified claims touch.
-/

/-- An Algorithm row (models.py): the fields the verified operations read
or write. view_count and usage_count are the telemetry counters;
start_node_id is nullable. -/
structure Algorithm where
  id : ℤ
  start_node_id : Option ℤ
  view_count : ℤ
  usage_count : ℤ
  updated_at : ℕ
deriving DecidableEq, Repr

/-- An AlgorithmNode row: identity, owner, type tag, enumeration index and
the soft-delete flag. -/
structure AlgorithmNode where
  id : ℤ
  algorithm_id : ℤ
  node_type : String
  order_index : ℤ
  is_active : Bool
deriving DecidableEq, Repr

/-- An AlgorithmEdge row: identity, owner, endpoints, enumeration index and
the soft-delete flag. -/
structure AlgorithmEdge where
  id : ℤ
  algorithm_id : ℤ
  from_node_id : ℤ
  to_node_id : ℤ
  order_index : ℤ
  is_active : Bool
deriving DecidableEq, Repr

/-- The database session state: the three tables, as lists in storage
(insertion) order. -/
structure Db where
  algorithms : List Algorithm
  nodes : List AlgorithmNode
  edges : List AlgorithmEdge
deriving DecidableEq, Repr

/-- get_algorithm_by_id (crud.py lines 1247-1249):
query(Algorithm).filter(id == algorithm_id).first(). -/
def get_algorithm_by_id (db : Db) (algorithm_id : ℤ) : Option Algorithm :=
  (db.algorithms.filter (fun a => a.id == algorithm_id)).head?

/-- get_algorithm_node_by_id (crud.py lines 1399-1401). -/
def get_algorithm_node_by_id (db : Db) (node_id : ℤ) : Option AlgorithmNode :=
  (db.nodes.filter (fun n => n.id == node_id)).head?

/-- The order_index comparison used by order_by(order_index); the sort is
modelled as Mathlib's stable insertion sort. -/
def nodeIdxLe (n m : AlgorithmNode) : Prop := n.order_index ≤ m.order_index

instance : DecidableRel nodeIdxLe := fun n m => Int.decLe n.order_index m.order_index

def edgeIdxLe (e f : AlgorithmEdge) : Prop := e.order_index ≤ f.order_index

instance : DecidableRel edgeIdxLe := fun e f => Int.decLe e.order_index f.order_index

/-- get_algorithm_nodes_by_algorithm (crud.py lines 1403-1411): active
nodes of the algorithm ordered by order_index. -/
def get_algorithm_nodes_by_algorithm (db : Db) (algorithm_id : ℤ) : List AlgorithmNode :=
  List.insertionSort nodeIdxLe
    (db.nodes.filter (fun n => n.algorithm_id == algorithm_id && n.is_active))

/-- get_algorithm_edges_by_algorithm (crud.py lines 1435-1443). -/
def get_algorithm_edges_by_algorithm (db : Db) (algorithm_id : ℤ) : List AlgorithmEdge :=
  List.insertionSort edgeIdxLe
    (db.edges.filter (fun e => e.algorithm_id == algorithm_id && e.is_active))

/-- The fallback query inside get_algorithm_start_node (crud.py lines
1417-1424): active nodes of the algorithm with node_type "start", taken
with .first() and NO order_by clause, so in storage order. -/
def startNodeFallback (db : Db) (algorithm_id : ℤ) : Option AlgorithmNode :=
  (db.nodes.filter (fun n =>
    n.algorithm_id == algorithm_id && n.node_type == "start" && n.is_active)).head?

/-- get_algorithm_start_node (crud.py lines 1413-1426). Python's
"not algorithm.start_node_id" is true for both None and 0, so both cases
take the fallback query. -/
def get_algorithm_start_node (db : Db) (algorithm_id : ℤ) : Option AlgorithmNode :=
  match get_algorithm_by_id db algorithm_id with
  | Option.none => startNodeFallback db algorithm_id
  | Option.some alg =>
    match alg.start_node_id with
    | Option.none => startNodeFallback db algorithm_id
    | Option.some sid =>
      if sid = 0 then startNodeFallback db algorithm_id
      else get_algorithm_node_by_id db sid

/-- get_outgoing_edges_from_node (crud.py lines 1443-1450): active edges
with the given from_node_id, ordered by order_index. -/
def get_outgoing_edges_from_node (db : Db) (node_id : ℤ) : List AlgorithmEdge :=
  List.insertionSort edgeIdxLe
    (db.edges.filter (fun e => e.from_node_id == node_id && e.is_active))

/-- Rewrites the first list entry whose id matches, leaving everything
else untouched: the effect of mutating the ORM object returned by a
.first() query and committing. -/
def bumpFirst (f : Algorithm → Algorithm) (algorithm_id : ℤ) :
    List Algorithm → List Algorithm
  | [] => []
  | a :: rest =>
    if a.id = algorithm_id then f a :: rest
    else a :: bumpFirst f algorithm_id rest

/-- The row update applied by increment_algorithm_view_count:
view_count + 1 and a fresh updated_at. -/
def bumpView (now : ℕ) (a : Algorithm) : Algorithm :=
  { a with view_count := a.view_count + 1, updated_at := now }

/-- The row update applied by increment_algorithm_usage_count:
usage_count + 1 and a fresh updated_at. -/
def bumpUsage (now : ℕ) (a : Algorithm) : Algorithm :=
  { a with usage_count := a.usage_count + 1, updated_at := now }

/-- increment_algorithm_view_count (crud.py lines 1372-1382): None and no
state change when the algorithm does not exist; otherwise view_count + 1
and a fresh updated_at on that row, returning the refreshed row. -/
def increment_algorithm_view_count (db : Db) (now : ℕ) (algorithm_id : ℤ) :
    Db × Option Algorithm :=
  match get_algorithm_by_id db algorithm_id with
  | Option.none => (db, Option.none)
  | Option.some _ =>
    let db2 : Db := { db with algorithms := bumpFirst (bumpView now) algorithm_id db.algorithms }
    (db2, get_algorithm_by_id db2 algorithm_id)

/-- increment_algorithm_usage_count (crud.py lines 1384-1394): same shape
as the view counter, on usage_count. -/
def increment_algorithm_usage_count (db : Db) (now : ℕ) (algorithm_id : ℤ) :
    Db × Option Algorithm :=
  match get_algorithm_by_id db algorithm_id with
  | Option.none => (db, Option.none)
  | Option.some _ =>
    let db2 : Db := { db with algorithms := bumpFirst (bumpUsage now) algorithm_id db.algorithms }
    (db2, get_algorithm_by_id db2 algorithm_id)

/-- get_algorithm_with_nodes_and_edges (crud.py lines 1461-1471): the
algorithm together with its active nodes and edges; None when absent. -/
def get_algorithm_with_nodes_and_edges (db : Db) (algorithm_id : ℤ) :
    Option (Algorithm × List AlgorithmNode × List AlgorithmEdge) :=
  match get_algorithm_by_id db algorithm_id with
  | Option.none => Option.none
  | Option.some alg =>
    Option.some (alg, get_algorithm_nodes_by_algorithm db algorithm_id,
      get_algorithm_edges_by_algorithm db algorithm_id)

/-- The GET /algorithms/id endpoint (main.py lines 1310-1327): 404 leaves
the state unchanged; otherwise the view counter is incremented. The second
component records whether the algorithm was found. -/
def get_algorithm_endpoint (db : Db) (now : ℕ) (algorithm_id : ℤ) : Db × Option Algorithm :=
  match get_algorithm_by_id db algorithm_id with
  | Option.none => (db, Option.none)
  | Option.some alg => ((increment_algorithm_view_count db now algorithm_id).1, Option.some alg)

/-- The GET /algorithms/id/full endpoint (main.py lines 1329-1355): 404
leaves the state unchanged; otherwise the usage counter is incremented and
the composite payload (algorithm, nodes, edges, resolved start node) is
returned. -/
def get_algorithm_full_endpoint (db : Db) (now : ℕ) (algorithm_id : ℤ) :
    Db × Option ((Algorithm × List AlgorithmNode × List AlgorithmEdge) ×
      Option AlgorithmNode) :=
  match get_algorithm_with_nodes_and_edges db algorithm_id with
  | Option.none => (db, Option.none)
  | Option.some payload =>
    let db2 : Db := (increment_algorithm_usage_count db now algorithm_id).1
    (db2, Option.some (payload, get_algorithm_start_node db2 algorithm_id))

/-- The core operations of the graph model that touch or read state, for
the frame property that no operation ever decrements usage_count. -/
inductive CoreOp where
  | fullFetch (now : ℕ) (algorithm_id : ℤ)
  | plainGet (now : ℕ) (algorithm_id : ℤ)
  | incView (now : ℕ) (algorithm_id : ℤ)
  | incUsage (now : ℕ) (algorithm_id : ℤ)
  | resolveStart (algorithm_id : ℤ)
  | listOutgoing (node_id : ℤ)

/-- The state transition of each core operation (the pure reads leave the
state unchanged). -/
def applyCoreOp : CoreOp → Db → Db
  | .fullFetch now aid, db => (get_algorithm_full_endpoint db now aid).1
  | .plainGet now aid, db => (get_algorithm_endpoint db now aid).1
  | .incView now aid, db => (increment_algorithm_view_count db now aid).1
  | .incUsage now aid, db => (increment_algorithm_usage_count db now aid).1
  | .resolveStart _, db => db
  | .listOutgoing _, db => db

/-- The usage counter of a stored algorithm, as observed through
get_algorithm_by_id. -/
def usageCountOf (db : Db) (algorithm_id : ℤ) : Option ℤ :=
  (get_algorithm_by_id db algorithm_id).map (fun a => a.usage_count)

instance : IsTotal AlgorithmEdge edgeIdxLe :=
  ⟨fun a b => Int.le_total a.order_index b.order_index⟩

instance : IsTrans AlgorithmEdge edgeIdxLe :=
  ⟨fun _ _ _ hab hbc => le_trans hab hbc⟩

/-
Helper lemmas shared by the claim theorems.
-/

theorem validate_ok {value : ℚ} {lo hi : ℤ} {name : String}
    (h0 : (lo : ℚ) ≤ value) (h1 : value ≤ (hi : ℚ)) :
    validate_numeric_range value lo hi name = Except.ok () := by
  have h : ¬(value < (lo : ℚ) ∨ value > (hi : ℚ)) := by
    push_neg
    exact ⟨h0, h1⟩
  simp [validate_numeric_range, h]

theorem validate_err {value : ℚ} {lo hi : ℤ} {name : String}
    (h : value < (lo : ℚ) ∨ value > (hi : ℚ)) :
    validate_numeric_range value lo hi name =
      Except.error (name ++ " debe estar entre " ++ toString lo ++ " y " ++ toString hi) := by
  simp [validate_numeric_range, h]

theorem curb65Result_score (s : ℤ) : (curb65Result s).score = (s : ℚ) := by
  unfold curb65Result
  split_ifs <;> rfl

theorem curb65Score_bounds (confusion : Bool) (urea : ℚ) (rr sys dia age : ℤ) :
    0 ≤ curb65Score confusion urea rr sys dia age ∧
      curb65Score confusion urea rr sys dia age ≤ 5 := by
  unfold curb65Score
  split_ifs <;> omega

theorem curb65Result_risk (s : ℤ) (h0 : 0 ≤ s) (h5 : s ≤ 5) :
    (curb65Result s).risk_level =
      (if s ≤ 1 then RiskLevel.LOW
       else if s = 2 then RiskLevel.MODERATE
       else if s = 3 then RiskLevel.HIGH
       else RiskLevel.SEVERE) := by
  interval_cases s <;> rfl

/-- C1: for valid CURB-65 inputs, calculate_curb65 succeeds with a score
equal to the sum of the five indicator points (confusion; urea > 19;
respiratory rate ≥ 30; systolic < 90 or diastolic ≤ 60; age ≥ 65), the
score lies in [0, 5], and the risk level is Low for 0-1, Moderate for 2,
High for 3 and Severe for ≥ 4. -/
theorem curb65_score_and_risk (confusion : Bool) (urea : ℚ) (rr sys dia age : ℤ)
    (hu0 : 0 ≤ urea) (hu1 : urea ≤ 500) (hr0 : 0 ≤ rr) (hr1 : rr ≤ 100)
    (hs0 : 40 ≤ sys) (hs1 : sys ≤ 300) (hd0 : 20 ≤ dia) (hd1 : dia ≤ 200)
    (ha0 : 0 ≤ age) (ha1 : age ≤ 150) :
    ∃ r, calculate_curb65 confusion urea rr sys dia age = Except.ok r ∧
      r.score = (curb65Score confusion urea rr sys dia age : ℚ) ∧
      0 ≤ curb65Score confusion urea rr sys dia age ∧
      curb65Score confusion urea rr sys dia age ≤ 5 ∧
      r.risk_level =
        (if curb65Score confusion urea rr sys dia age ≤ 1 then RiskLevel.LOW
         else if curb65Score confusion urea rr sys dia age = 2 then RiskLevel.MODERATE
         else if curb65Score confusion urea rr sys dia age = 3 then RiskLevel.HIGH
         else RiskLevel.SEVERE) := by
  have v1 : validate_numeric_range urea 0 500 "Urea" = Except.ok () :=
    validate_ok (by exact_mod_cast hu0) (by exact_mod_cast hu1)
  have v2 : validate_numeric_range (rr : ℚ) 0 100 "Frecuencia respiratoria" = Except.ok () :=
    validate_ok (by exact_mod_cast hr0) (by exact_mod_cast hr1)
  have v3 : validate_numeric_range (sys : ℚ) 40 300 "Presión arterial sistólica" = Except.ok () :=
    validate_ok (by exact_mod_cast hs0) (by exact_mod_cast hs1)
  have v4 : validate_numeric_range (dia : ℚ) 20 200 "Presión arterial diastólica" = Except.ok () :=
    validate_ok (by exact_mod_cast hd0) (by exact_mod_cast hd1)
  have v5 : validate_numeric_range (age : ℚ) 0 150 "Edad" = Except.ok () :=
    validate_ok (by exact_mod_cast ha0) (by exact_mod_cast ha1)
  obtain ⟨hb0, hb5⟩ := curb65Score_bounds confusion urea rr sys dia age
  refine ⟨curb65Result (curb65Score confusion urea rr sys dia age), ?_, ?_, hb0, hb5, ?_⟩
  · simp only [calculate_curb65, v1, v2, v3, v4, v5]
    rfl
  · exact curb65Result_score _
  · exact curb65Result_risk _ hb0 hb5

/-- Witness for C1 at the claimed concrete input: confusion with urea 8,
respiratory rate 32, blood pressure 85/55, age 72 gives score 4, Severe. -/
theorem curb65_score_and_risk_witness :
    (∃ r, calculate_curb65 true 8 32 85 55 72 = Except.ok r ∧ r.score = 4 ∧
      r.risk_level = RiskLevel.SEVERE) ∧
    calculate_curb65 true 8 32 85 55 72 =
      Except.ok ⟨4, RiskLevel.SEVERE, "Riesgo muy alto de mortalidad (40%)",
        "Hospitalización urgente. Considerar manejo en UCI."⟩ := by
  refine ⟨?_, by rfl⟩
  obtain ⟨r, hok, hs, h0, h5, hrisk⟩ :=
    curb65_score_and_risk true 8 32 85 55 72 (by norm_num) (by norm_num) (by norm_num)
      (by norm_num) (by norm_num) (by norm_num) (by norm_num) (by norm_num)
      (by norm_num) (by norm_num)
  refine ⟨r, hok, ?_, ?_⟩
  · rw [hs]
    norm_num [curb65Score]
  · rw [hrisk]
    norm_num [curb65Score]

/-- C2 counterexample: calculate_apache_ii performs no input validation.
Called with age = -5 (outside the documented inclusive age range [0, 150])
and otherwise ordinary vitals, it returns a result instead of failing with
a validation error. -/
theorem apache_ii_no_validation_cex :
    calculate_apache_ii 36.5 85 80 16 95 7.4 140 4 1 40 10 15 (-5) false =
      Except.ok ⟨2, RiskLevel.LOW,
        "Riesgo bajo de mortalidad (APACHE II 2). Mortalidad estimada: <4%",
        "Paciente estable. Monitoreo rutinario."⟩ := by
  norm_num [calculate_apache_ii, apacheScore, apacheTempPoints, apacheMapPoints,
    apacheHrPoints, apacheAgePoints, apacheResult]
  rfl

/-- C2 (amended): every calculator except calculate_apache_ii and
calculate_nihss validates each of its numeric inputs against its
documented inclusive range and fails with a ValueError naming the field
and its bounds — each of the five CURB-65 numeric inputs, the three
Glasgow components and the CHA2DS2-VASc age, where a later field's error
surfaces once the earlier-validated fields are in range, as the
sequential checks in the source do — while calculate_apache_ii and
calculate_nihss perform no numeric-range validation and return a result
for every input. -/
theorem calculators_range_validation :
    (∀ (c : Bool) (u : ℚ) (rr sys dia age : ℤ), (u < 0 ∨ 500 < u) →
      calculate_curb65 c u rr sys dia age =
        Except.error "Urea debe estar entre 0 y 500") ∧
    (∀ (c : Bool) (u : ℚ) (rr sys dia age : ℤ), 0 ≤ u → u ≤ 500 → (rr < 0 ∨ 100 < rr) →
      calculate_curb65 c u rr sys dia age =
        Except.error "Frecuencia respiratoria debe estar entre 0 y 100") ∧
    (∀ (c : Bool) (u : ℚ) (rr sys dia age : ℤ), 0 ≤ u → u ≤ 500 → 0 ≤ rr → rr ≤ 100 →
      (sys < 40 ∨ 300 < sys) →
      calculate_curb65 c u rr sys dia age =
        Except.error "Presión arterial sistólica debe estar entre 40 y 300") ∧
    (∀ (c : Bool) (u : ℚ) (rr sys dia age : ℤ), 0 ≤ u → u ≤ 500 → 0 ≤ rr → rr ≤ 100 →
      40 ≤ sys → sys ≤ 300 → (dia < 20 ∨ 200 < dia) →
      calculate_curb65 c u rr sys dia age =
        Except.error "Presión arterial diastólica debe estar entre 20 y 200") ∧
    (∀ (c : Bool) (u : ℚ) (rr sys dia age : ℤ), 0 ≤ u → u ≤ 500 → 0 ≤ rr → rr ≤ 100 →
      40 ≤ sys → sys ≤ 300 → 20 ≤ dia → dia ≤ 200 → (age < 0 ∨ 150 < age) →
      calculate_curb65 c u rr sys dia age = Except.error "Edad debe estar entre 0 y 150") ∧
    (∀ eo vr mr : ℤ, (eo < 1 ∨ 4 < eo) →
      calculate_glasgow_coma_scale eo vr mr =
        Except.error "Apertura ocular debe estar entre 1-4") ∧
    (∀ eo vr mr : ℤ, 1 ≤ eo → eo ≤ 4 → (vr < 1 ∨ 5 < vr) →
      calculate_glasgow_coma_scale eo vr mr =
        Except.error "Respuesta verbal debe estar entre 1-5") ∧
    (∀ eo vr mr : ℤ, 1 ≤ eo → eo ≤ 4 → 1 ≤ vr → vr ≤ 5 → (mr < 1 ∨ 6 < mr) →
      calculate_glasgow_coma_scale eo vr mr =
        Except.error "Respuesta motora debe estar entre 1-6") ∧
    (∀ (chf ht : Bool) (age : ℤ) (dm st vd sf : Bool), (age < 0 ∨ 150 < age) →
      calculate_chads2_vasc chf ht age dm st vd sf =
        Except.error "Edad debe estar entre 0 y 150") ∧
    (∀ (t m : ℚ) (hr rr : ℤ) (ox ph na k cr hct wbc : ℚ) (gcs age : ℤ) (ch : Bool),
      ∃ r, calculate_apache_ii t m hr rr ox ph na k cr hct wbc gcs age ch = Except.ok r) ∧
    (∀ a1 a2 a3 a4 a5 a6 a7 a8 a9 a10 a11 a12 a13 a14 a15 : ℤ,
      ∃ r, calculate_nihss a1 a2 a3 a4 a5 a6 a7 a8 a9 a10 a11 a12 a13 a14 a15 =
        Except.ok r) := by
  refine ⟨?_, ?_, ?_, ?_, ?_, ?_, ?_, ?_, ?_, ?_, ?_⟩
  · intro c u rr sys dia age hu
    have v1 : validate_numeric_range u 0 500 "Urea" =
        Except.error ("Urea" ++ " debe estar entre " ++ toString (0 : ℤ) ++ " y " ++
          toString (500 : ℤ)) := by
      refine validate_err ?_
      rcases hu with h | h
      · exact Or.inl (by exact_mod_cast h)
      · exact Or.inr (by exact_mod_cast h)
    simp only [calculate_curb65, v1]
    rfl
  · intro c u rr sys dia age hu0 hu1 hrr
    have v1 : validate_numeric_range u 0 500 "Urea" = Except.ok () :=
      validate_ok (by exact_mod_cast hu0) (by exact_mod_cast hu1)
    have v2 : validate_numeric_range (rr : ℚ) 0 100 "Frecuencia respiratoria" =
        Except.error ("Frecuencia respiratoria" ++ " debe estar entre " ++ toString (0 : ℤ) ++
          " y " ++ toString (100 : ℤ)) := by
      refine validate_err ?_
      rcases hrr with h | h
      · exact Or.inl (by exact_mod_cast h)
      · exact Or.inr (by exact_mod_cast h)
    simp only [calculate_curb65, v1, v2]
    rfl
  · intro c u rr sys dia age hu0 hu1 hr0 hr1 hsys
    have v1 : validate_numeric_range u 0 500 "Urea" = Except.ok () :=
      validate_ok (by exact_mod_cast hu0) (by exact_mod_cast hu1)
    have v2 : validate_numeric_range (rr : ℚ) 0 100 "Frecuencia respiratoria" = Except.ok () :=
      validate_ok (by exact_mod_cast hr0) (by exact_mod_cast hr1)
    have v3 : validate_numeric_range (sys : ℚ) 40 300 "Presión arterial sistólica" =
        Except.error ("Presión arterial sistólica" ++ " debe estar entre " ++
          toString (40 : ℤ) ++ " y " ++ toString (300 : ℤ)) := by
      refine validate_err ?_
      rcases hsys with h | h
      · exact Or.inl (by exact_mod_cast h)
      · exact Or.inr (by exact_mod_cast h)
    simp only [calculate_curb65, v1, v2, v3]
    rfl
  · intro c u rr sys dia age hu0 hu1 hr0 hr1 hs0 hs1 hdia
    have v1 : validate_numeric_range u 0 500 "Urea" = Except.ok () :=
      validate_ok (by exact_mod_cast hu0) (by exact_mod_cast hu1)
    have v2 : validate_numeric_range (rr : ℚ) 0 100 "Frecuencia respiratoria" = Except.ok () :=
      validate_ok (by exact_mod_cast hr0) (by exact_mod_cast hr1)
    have v3 : validate_numeric_range (sys : ℚ) 40 300 "Presión arterial sistólica" =
        Except.ok () :=
      validate_ok (by exact_mod_cast hs0) (by exact_mod_cast hs1)
    have v4 : validate_numeric_range (dia : ℚ) 20 200 "Presión arterial diastólica" =
        Except.error ("Presión arterial diastólica" ++ " debe estar entre " ++
          toString (20 : ℤ) ++ " y " ++ toString (200 : ℤ)) := by
      refine validate_err ?_
      rcases hdia with h | h
      · exact Or.inl (by exact_mod_cast h)
      · exact Or.inr (by exact_mod_cast h)
    simp only [calculate_curb65, v1, v2, v3, v4]
    rfl
  · intro c u rr sys dia age hu0 hu1 hr0 hr1 hs0 hs1 hd0 hd1 hage
    have v1 : validate_numeric_range u 0 500 "Urea" = Except.ok () :=
      validate_ok (by exact_mod_cast hu0) (by exact_mod_cast hu1)
    have v2 : validate_numeric_range (rr : ℚ) 0 100 "Frecuencia respiratoria" = Except.ok () :=
      validate_ok (by exact_mod_cast hr0) (by exact_mod_cast hr1)
    have v3 : validate_numeric_range (sys : ℚ) 40 300 "Presión arterial sistólica" =
        Except.ok () :=
      validate_ok (by exact_mod_cast hs0) (by exact_mod_cast hs1)
    have v4 : validate_numeric_range (dia : ℚ) 20 200 "Presión arterial diastólica" =
        Except.ok () :=
      validate_ok (by exact_mod_cast hd0) (by exact_mod_cast hd1)
    have v5 : validate_numeric_range (age : ℚ) 0 150 "Edad" =
        Except.error ("Edad" ++ " debe estar entre " ++ toString (0 : ℤ) ++ " y " ++
          toString (150 : ℤ)) := by
      refine validate_err ?_
      rcases hage with h | h
      · exact Or.inl (by exact_mod_cast h)
      · exact Or.inr (by exact_mod_cast h)
    simp only [calculate_curb65, v1, v2, v3, v4, v5]
    rfl
  · intro eo vr mr h
    have hc : ¬(1 ≤ eo ∧ eo ≤ 4) := by omega
    simp [calculate_glasgow_coma_scale, hc]
  · intro eo vr mr he0 he1 hvr
    have hv : ¬(1 ≤ vr ∧ vr ≤ 5) := by omega
    simp [calculate_glasgow_coma_scale, he0, he1, hv]
  · intro eo vr mr he0 he1 hv0 hv1 hmr
    have hm : ¬(1 ≤ mr ∧ mr ≤ 6) := by omega
    simp [calculate_glasgow_coma_scale, he0, he1, hv0, hv1, hm]
  · intro chf ht age dm st vd sf hage
    have v : validate_numeric_range (age : ℚ) 0 150 "Edad" =
        Except.error ("Edad" ++ " debe estar entre " ++ toString (0 : ℤ) ++ " y " ++
          toString (150 : ℤ)) := by
      refine validate_err ?_
      rcases hage with h | h
      · exact Or.inl (by exact_mod_cast h)
      · exact Or.inr (by exact_mod_cast h)
    simp only [calculate_chads2_vasc, v]
    rfl
  · intro t m hr rr ox ph na k cr hct wbc gcs age ch
    exact ⟨_, rfl⟩
  · intro a1 a2 a3 a4 a5 a6 a7 a8 a9 a10 a11 a12 a13 a14 a15
    exact ⟨_, rfl⟩

/-- Witness for C2 (amended): CURB-65 with age -5, and with respiratory
rate 150, fails validation with the field name and bounds in the error. -/
theorem calculators_range_validation_witness :
    calculate_curb65 false 5 20 120 80 (-5) =
      Except.error "Edad debe estar entre 0 y 150" ∧
    calculate_curb65 false 5 150 120 80 50 =
      Except.error "Frecuencia respiratoria debe estar entre 0 y 100" :=
  ⟨calculators_range_validation.2.2.2.2.1 false 5 20 120 80 (-5) (by norm_num) (by norm_num)
      (by norm_num) (by norm_num) (by norm_num) (by norm_num) (by norm_num) (by norm_num)
      (Or.inl (by norm_num)),
    calculators_range_validation.2.1 false 5 150 120 80 50 (by norm_num) (by norm_num)
      (Or.inr (by norm_num))⟩

theorem apacheResult_score (s : ℤ) : (apacheResult s).score = (s : ℚ) := by
  unfold apacheResult
  split_ifs <;> rfl

theorem apacheResult_risk (s : ℤ) :
    (apacheResult s).risk_level =
      (if s ≤ 4 then RiskLevel.LOW
       else if 5 ≤ s ∧ s ≤ 14 then RiskLevel.MODERATE
       else if 15 ≤ s ∧ s ≤ 24 then RiskLevel.HIGH
       else RiskLevel.SEVERE) := by
  unfold apacheResult
  by_cases h1 : s ≤ 4
  · simp [h1]
  · by_cases h2 : s ≤ 14
    · have ha : 5 ≤ s ∧ s ≤ 14 := ⟨by omega, h2⟩
      simp [h1, h2, ha]
    · by_cases h3 : s ≤ 24
      · have hb : ¬(5 ≤ s ∧ s ≤ 14) := by omega
        have hc : 15 ≤ s ∧ s ≤ 24 := ⟨by omega, h3⟩
        simp [h1, h2, h3, hb, hc]
      · have hb : ¬(5 ≤ s ∧ s ≤ 14) := by omega
        have hc : ¬(15 ≤ s ∧ s ≤ 24) := by omega
        simp [h1, h2, h3, hb, hc]

theorem apacheResult_texts (s : ℤ) :
    (s ≤ 4 →
      (apacheResult s).interpretation =
        "Riesgo bajo de mortalidad (APACHE II " ++ toString s ++ "). Mortalidad estimada: <4%" ∧
      (apacheResult s).recommendations = "Paciente estable. Monitoreo rutinario.") ∧
    (5 ≤ s ∧ s ≤ 14 →
      (apacheResult s).interpretation =
        "Riesgo moderado de mortalidad (APACHE II " ++ toString s ++
          "). Mortalidad estimada: 8-15%" ∧
      (apacheResult s).recommendations = "Monitoreo cercano. Considerar cuidados intermedios.") ∧
    (15 ≤ s ∧ s ≤ 24 →
      (apacheResult s).interpretation =
        "Riesgo alto de mortalidad (APACHE II " ++ toString s ++
          "). Mortalidad estimada: 15-25%" ∧
      (apacheResult s).recommendations = "UCI recomendada. Soporte intensivo.") ∧
    (24 < s →
      (apacheResult s).interpretation =
        "Riesgo muy alto de mortalidad (APACHE II " ++ toString s ++
          "). Mortalidad estimada: >40%" ∧
      (apacheResult s).recommendations = "UCI. Soporte vital máximo. Considerar pronóstico.") := by
  unfold apacheResult
  refine ⟨fun h => ?_, fun h => ?_, fun h => ?_, fun h => ?_⟩
  · simp [h]
  · have h1 : ¬s ≤ 4 := by omega
    have h2 : s ≤ 14 := h.2
    simp [h1, h2]
  · have h1 : ¬s ≤ 4 := by omega
    have h2 : ¬s ≤ 14 := by omega
    have h3 : s ≤ 24 := h.2
    simp [h1, h2, h3]
  · have h1 : ¬s ≤ 4 := by omega
    have h2 : ¬s ≤ 14 := by omega
    have h3 : ¬s ≤ 24 := by omega
    simp [h1, h2, h3]

/-- C3: calculate_apache_ii adds temperature points by the stated ladder
(4 when temperature ≥ 41 or ≤ 29.9, else 3 when ≥ 39 or ≤ 31.9, else 1
when ≥ 38.5 or ≤ 33.9, else 0), adds exactly 15 - glasgow_coma_scale
points for the Glasgow component, and buckets the total as Low for ≤ 4,
Moderate for 5-14, High for 15-24 and Severe above 24, each bucket with
its fixed mortality-estimate string and recommendation. -/
theorem apache_ii_temp_gcs_buckets (t m : ℚ) (hr rr : ℤ) (ox ph na k cr hct wbc : ℚ)
    (gcs age : ℤ) (ch : Bool) :
    ∃ r, calculate_apache_ii t m hr rr ox ph na k cr hct wbc gcs age ch = Except.ok r ∧
      r.score = ((apacheScore t m hr gcs age ch : ℤ) : ℚ) ∧
      apacheScore t m hr gcs age ch =
        apacheTempPoints t + apacheMapPoints m + apacheHrPoints hr + (15 - gcs) +
          apacheAgePoints age + (if ch then 5 else 0) ∧
      apacheTempPoints t =
        (if 41 ≤ t ∨ t ≤ 29.9 then 4
         else if 39 ≤ t ∨ t ≤ 31.9 then 3
         else if 38.5 ≤ t ∨ t ≤ 33.9 then 1
         else 0) ∧
      (∀ s : ℤ, s = apacheScore t m hr gcs age ch →
        r.risk_level =
          (if s ≤ 4 then RiskLevel.LOW
           else if 5 ≤ s ∧ s ≤ 14 then RiskLevel.MODERATE
           else if 15 ≤ s ∧ s ≤ 24 then RiskLevel.HIGH
           else RiskLevel.SEVERE) ∧
        (s ≤ 4 →
          r.interpretation =
            "Riesgo bajo de mortalidad (APACHE II " ++ toString s ++
              "). Mortalidad estimada: <4%" ∧
          r.recommendations = "Paciente estable. Monitoreo rutinario.") ∧
        (5 ≤ s ∧ s ≤ 14 →
          r.interpretation =
            "Riesgo moderado de mortalidad (APACHE II " ++ toString s ++
              "). Mortalidad estimada: 8-15%" ∧
          r.recommendations = "Monitoreo cercano. Considerar cuidados intermedios.") ∧
        (15 ≤ s ∧ s ≤ 24 →
          r.interpretation =
            "Riesgo alto de mortalidad (APACHE II " ++ toString s ++
              "). Mortalidad estimada: 15-25%" ∧
          r.recommendations = "UCI recomendada. Soporte intensivo.") ∧
        (24 < s →
          r.interpretation =
            "Riesgo muy alto de mortalidad (APACHE II " ++ toString s ++
              "). Mortalidad estimada: >40%" ∧
          r.recommendations = "UCI. Soporte vital máximo. Considerar pronóstico.")) := by
  refine ⟨apacheResult (apacheScore t m hr gcs age ch), rfl, apacheResult_score _, rfl, rfl, ?_⟩
  rintro s rfl
  obtain ⟨t1, t2, t3, t4⟩ := apacheResult_texts (apacheScore t m hr gcs age ch)
  exact ⟨apacheResult_risk _, t1, t2, t3, t4⟩

/-- Witness for C3: temperature 40 contributes 3 points, Glasgow 10
contributes 5, and the concrete total 21 lands in the High bucket. -/
theorem apache_ii_temp_gcs_buckets_witness :
    apacheScore 40 85 120 10 70 true = 21 ∧
    ∃ r, calculate_apache_ii 40 85 120 16 95 7.4 140 4 1 40 10 10 70 true = Except.ok r ∧
      r.score = (21 : ℚ) ∧ r.risk_level = RiskLevel.HIGH := by
  have hs : apacheScore 40 85 120 10 70 true = 21 := by
    norm_num [apacheScore, apacheTempPoints, apacheMapPoints, apacheHrPoints, apacheAgePoints]
  refine ⟨hs, ?_⟩
  obtain ⟨r, hok, hscore, hdecomp, htemp, hb⟩ :=
    apache_ii_temp_gcs_buckets 40 85 120 16 95 7.4 140 4 1 40 10 10 70 true
  obtain ⟨hrisk, _, _, hhigh, _⟩ := hb (apacheScore 40 85 120 10 70 true) rfl
  refine ⟨r, hok, ?_, ?_⟩
  · rw [hscore, hs]
    norm_num
  · rw [hrisk, hs]
    norm_num

/-- C9: in calculate_apache_ii the mean-arterial-pressure component
contributes 2 points for every MAP strictly greater than 69 and at most
109 (so a clinically normal MAP adds 2 points), and contributes 0 points
exactly when MAP lies strictly between 109 and 130. -/
theorem apache_ii_map_component (t m : ℚ) (hr rr : ℤ) (ox ph na k cr hct wbc : ℚ)
    (gcs age : ℤ) (ch : Bool) :
    (∃ r, calculate_apache_ii t m hr rr ox ph na k cr hct wbc gcs age ch = Except.ok r ∧
      r.score = ((apacheTempPoints t + apacheMapPoints m + apacheHrPoints hr + (15 - gcs) +
        apacheAgePoints age + (if ch then 5 else 0) : ℤ) : ℚ)) ∧
    (69 < m → m ≤ 109 → apacheMapPoints m = 2) ∧
    (apacheMapPoints m = 0 ↔ 109 < m ∧ m < 130) := by
  refine ⟨⟨apacheResult (apacheScore t m hr gcs age ch), rfl, apacheResult_score _⟩, ?_, ?_⟩
  · intro h1 h2
    have c1 : ¬(m ≥ 160 ∨ m ≤ 49) := by
      push_neg
      constructor <;> linarith
    have c2 : ¬(m ≥ 130 ∨ m ≤ 69) := by
      push_neg
      constructor <;> linarith
    simp [apacheMapPoints, c1, c2, h2]
  · constructor
    · intro h
      unfold apacheMapPoints at h
      split_ifs at h with c1 c2 c3
      · exact absurd h (by norm_num)
      · exact absurd h (by norm_num)
      · exact absurd h (by norm_num)
      · push_neg at c2 c3
        exact ⟨c3, c2.1⟩
    · rintro ⟨ha, hb⟩
      have c1 : ¬(m ≥ 160 ∨ m ≤ 49) := by
        push_neg
        constructor <;> linarith
      have c2 : ¬(m ≥ 130 ∨ m ≤ 69) := by
        push_neg
        constructor <;> linarith
      have c3 : ¬(m ≤ 109) := by linarith
      simp [apacheMapPoints, c1, c2, c3]

/-- Witness for C9 at MAP 85: a normal MAP contributes 2 points. -/
theorem apache_ii_map_component_witness :
    (69 : ℚ) < 85 ∧ (85 : ℚ) ≤ 109 ∧ apacheMapPoints 85 = 2 :=
  ⟨by norm_num, by norm_num,
    (apache_ii_map_component 36.5 85 70 16 95 7.4 140 4 1 40 10 15 50 false).2.1
      (by norm_num) (by norm_num)⟩

/-- The substring-containment property used to state which fragments an
interpretation string carries. -/
def strContains (sub s : String) : Prop :=
  ∃ a b : List Char, s.data = a ++ sub.data ++ b

theorem chadsResult_score (s : ℤ) : (chadsResult s).score = (s : ℚ) := by
  unfold chadsResult
  split_ifs <;> rfl

theorem chadsResult_risk_low (s : ℤ) (h : s = 0 ∨ s = 1) :
    (chadsResult s).risk_level = RiskLevel.LOW := by
  rcases h with rfl | rfl <;> rfl

theorem chadsResult_risk_high (s : ℤ) (h : 3 ≤ s) :
    (chadsResult s).risk_level = RiskLevel.HIGH ∧
      strContains (fmtTenths (32 + (s - 3) * 8) ++ "%") (chadsResult s).interpretation := by
  have h0 : s ≠ 0 := by omega
  have h1 : s ≠ 1 := by omega
  have h2 : s ≠ 2 := by omega
  unfold chadsResult
  rw [if_neg h0, if_neg h1, if_neg h2]
  refine ⟨rfl, ("Riesgo alto de stroke (CHA2DS2-VASc " ++ toString s ++
    "). Riesgo anual: ").data, [], ?_⟩
  simp [String.data_append, List.append_assoc]

/-- C4: for a valid CHA2DS2-VASc age, calculate_chads2_vasc succeeds with a
score that is one point each for CHF, hypertension, diabetes, vascular
disease and female sex, two points for stroke/TIA history, plus 2 when
age ≥ 75, 1 when 65 ≤ age < 75 and 0 otherwise; the risk is Low for score
0 or 1, Moderate for 2 and High for ≥ 3, and the High interpretation
string contains the annual-risk percentage 3.2 + (score-3)*0.8 rendered to
one decimal. -/
theorem chads2_vasc_spec (chf ht : Bool) (age : ℤ) (dm st vd sf : Bool)
    (ha0 : 0 ≤ age) (ha1 : age ≤ 150) :
    ∃ r, calculate_chads2_vasc chf ht age dm st vd sf = Except.ok r ∧
      r.score = ((chadsScore chf ht age dm st vd sf : ℤ) : ℚ) ∧
      chadsScore chf ht age dm st vd sf =
        (if chf then 1 else 0) + (if ht then 1 else 0) +
          (if 75 ≤ age then 2 else if 65 ≤ age then 1 else 0) +
          (if dm then 1 else 0) + (if st then 2 else 0) + (if vd then 1 else 0) +
          (if sf then 1 else 0) ∧
      ((chadsScore chf ht age dm st vd sf = 0 ∨ chadsScore chf ht age dm st vd sf = 1) →
        r.risk_level = RiskLevel.LOW) ∧
      (chadsScore chf ht age dm st vd sf = 2 → r.risk_level = RiskLevel.MODERATE) ∧
      (3 ≤ chadsScore chf ht age dm st vd sf →
        r.risk_level = RiskLevel.HIGH ∧
        strContains (fmtTenths (32 + (chadsScore chf ht age dm st vd sf - 3) * 8) ++ "%")
          r.interpretation) := by
  have v : validate_numeric_range (age : ℚ) 0 150 "Edad" = Except.ok () :=
    validate_ok (by exact_mod_cast ha0) (by exact_mod_cast ha1)
  refine ⟨chadsResult (chadsScore chf ht age dm st vd sf), ?_, chadsResult_score _, rfl,
    ?_, ?_, ?_⟩
  · simp only [calculate_chads2_vasc, v]
    rfl
  · exact chadsResult_risk_low _
  · intro h
    rw [h]
    rfl
  · exact chadsResult_risk_high _

/-- Witness for C4: all boolean factors true with age 80 gives score 9,
High risk, and an interpretation containing "8.0%". -/
theorem chads2_vasc_spec_witness :
    calculate_chads2_vasc true true 80 true true true true =
      Except.ok ⟨9, RiskLevel.HIGH,
        "Riesgo alto de stroke (CHA2DS2-VASc 9). Riesgo anual: 8.0%",
        "Anticoagulación oral fuertemente recomendada."⟩ ∧
    ∃ r, calculate_chads2_vasc true true 80 true true true true = Except.ok r ∧
      r.score = (9 : ℚ) ∧ r.risk_level = RiskLevel.HIGH ∧
      strContains "8.0%" r.interpretation := by
  refine ⟨by rfl, ?_⟩
  have hsc : chadsScore true true 80 true true true true = 9 := by
    norm_num [chadsScore]
  obtain ⟨r, hok, hscore, hform, hlow, hmod, hhigh⟩ :=
    chads2_vasc_spec true true 80 true true true true (by norm_num) (by norm_num)
  obtain ⟨hrisk, hcont⟩ := hhigh (by rw [hsc]; norm_num)
  refine ⟨r, hok, by rw [hscore, hsc]; norm_num, hrisk, ?_⟩
  have : fmtTenths (32 + (chadsScore true true 80 true true true true - 3) * 8) ++ "%" =
      "8.0%" := by
    rw [hsc]
    rfl
  rwa [this] at hcont

theorem head_filter_eq_none {α : Type} (p : α → Bool) (l : List α) :
    (l.filter p).head? = Option.none ↔ ∀ x ∈ l, p x = false := by
  induction l with
  | nil => simp
  | cons a rest ih =>
    by_cases h : p a
    · simp [List.filter_cons, h]
    · simp only [List.filter_cons, h, if_false, Bool.false_eq_true, ite_false, ih,
        List.mem_cons]
      constructor
      · intro hall x hx
        rcases hx with rfl | hx
        · exact Bool.eq_false_iff.mpr h
        · exact hall x hx
      · intro hall x hx
        exact hall x (Or.inr hx)

theorem head_filter_eq_some {α : Type} (p : α → Bool) (l : List α) (a : α)
    (h : (l.filter p).head? = Option.some a) :
    ∃ pre post, l = pre ++ a :: post ∧ (∀ x ∈ pre, p x = false) ∧ p a = true := by
  induction l with
  | nil => simp at h
  | cons b rest ih =>
    by_cases hb : p b
    · rw [List.filter_cons, if_pos hb] at h
      simp only [List.head?_cons, Option.some_inj] at h
      subst h
      exact ⟨[], rest, rfl, by simp, hb⟩
    · rw [List.filter_cons, if_neg hb] at h
      obtain ⟨pre, post, rfl, hpre, hpa⟩ := ih h
      refine ⟨b :: pre, post, rfl, ?_, hpa⟩
      intro x hx
      rcases List.mem_cons.mp hx with rfl | hx
      · exact Bool.eq_false_iff.mpr hb
      · exact hpre x hx

/-- The start-node predicate of the fallback query, as a proposition. -/
theorem startP_iff (aid : ℤ) (n : AlgorithmNode) :
    (n.algorithm_id == aid && n.node_type == "start" && n.is_active) = true ↔
      (n.algorithm_id = aid ∧ n.node_type = "start" ∧ n.is_active = true) := by
  simp [Bool.and_eq_true, and_assoc]

/-- C5 (amended): start-node resolution prefers a set (nonzero, non-null)
start_node_id and returns the node with that id; otherwise it returns the
first active node of type "start" belonging to the algorithm in storage
(insertion) order — the fallback query applies no order_index ordering —
and returns None when no such node exists. -/
theorem start_node_resolution (db : Db) (aid : ℤ) :
    (∀ alg sid, get_algorithm_by_id db aid = Option.some alg →
      alg.start_node_id = Option.some sid → sid ≠ 0 →
      get_algorithm_start_node db aid = get_algorithm_node_by_id db sid) ∧
    (∀ alg, get_algorithm_by_id db aid = Option.some alg →
      alg.start_node_id = Option.none →
      get_algorithm_start_node db aid = startNodeFallback db aid) ∧
    (get_algorithm_by_id db aid = Option.none →
      get_algorithm_start_node db aid = startNodeFallback db aid) ∧
    (∀ n, startNodeFallback db aid = Option.some n →
      ∃ pre post, db.nodes = pre ++ n :: post ∧
        (∀ m ∈ pre, ¬(m.algorithm_id = aid ∧ m.node_type = "start" ∧ m.is_active = true)) ∧
        n.algorithm_id = aid ∧ n.node_type = "start" ∧ n.is_active = true) ∧
    (startNodeFallback db aid = Option.none ↔
      ∀ n ∈ db.nodes, ¬(n.algorithm_id = aid ∧ n.node_type = "start" ∧ n.is_active = true)) := by
  refine ⟨?_, ?_, ?_, ?_, ?_⟩
  · intro alg sid h1 h2 h3
    unfold get_algorithm_start_node
    rw [h1]
    dsimp only
    rw [h2]
    simp [h3]
  · intro alg h1 h2
    unfold get_algorithm_start_node
    rw [h1]
    dsimp only
    rw [h2]
  · intro h1
    unfold get_algorithm_start_node
    rw [h1]
  · intro n hn
    obtain ⟨pre, post, heq, hpre, hpa⟩ := head_filter_eq_some _ _ _ hn
    refine ⟨pre, post, heq, ?_, (startP_iff aid n).mp hpa⟩
    intro m hm hcontra
    have := hpre m hm
    rw [Bool.eq_false_iff] at this
    exact this ((startP_iff aid m).mpr hcontra)
  · rw [startNodeFallback, head_filter_eq_none]
    constructor
    · intro hall n hn hcontra
      have := hall n hn
      rw [Bool.eq_false_iff] at this
      exact this ((startP_iff aid n).mpr hcontra)
    · intro hall n hn
      rw [Bool.eq_false_iff]
      intro hp
      exact hall n hn ((startP_iff aid n).mp hp)

/-- Witness for C5 (amended): with an explicit nonzero start_node_id the
resolver returns exactly the node with that id. -/
theorem start_node_resolution_witness :
    get_algorithm_start_node
        ⟨[⟨1, Option.some 2, 0, 0, 0⟩],
         [⟨1, 1, "start", 0, true⟩, ⟨2, 1, "decision", 1, true⟩], []⟩ 1 =
      Option.some ⟨2, 1, "decision", 1, true⟩ := by
  have h := (start_node_resolution
    ⟨[⟨1, Option.some 2, 0, 0, 0⟩],
     [⟨1, 1, "start", 0, true⟩, ⟨2, 1, "decision", 1, true⟩], []⟩ 1).1
    ⟨1, Option.some 2, 0, 0, 0⟩ 2 (by decide) rfl (by decide)
  rw [h]
  decide

/-- C5 counterexample: with start_node_id unset and two active "start"
nodes whose storage order disagrees with their order_index order, the
resolver returns the storage-first node (order_index 5), not the node with
the least order_index (1): the fallback query has no order_by clause. -/
theorem start_node_order_index_cex :
    get_algorithm_start_node
        ⟨[⟨1, Option.none, 0, 0, 0⟩],
         [⟨1, 1, "start", 5, true⟩, ⟨2, 1, "start", 1, true⟩], []⟩ 1 =
      Option.some ⟨1, 1, "start", 5, true⟩ ∧
    (⟨2, 1, "start", 1, true⟩ : AlgorithmNode) ∈
      (⟨[⟨1, Option.none, 0, 0, 0⟩],
        [⟨1, 1, "start", 5, true⟩, ⟨2, 1, "start", 1, true⟩], []⟩ : Db).nodes ∧
    (⟨2, 1, "start", 1, true⟩ : AlgorithmNode).algorithm_id = 1 ∧
    (⟨2, 1, "start", 1, true⟩ : AlgorithmNode).node_type = "start" ∧
    (⟨2, 1, "start", 1, true⟩ : AlgorithmNode).is_active = true ∧
    (⟨2, 1, "start", 1, true⟩ : AlgorithmNode).order_index <
      (⟨1, 1, "start", 5, true⟩ : AlgorithmNode).order_index := by
  refine ⟨?_, by decide, by decide, by decide, by decide, by decide⟩
  decide

/-- The outgoing-edge predicate of the query, as a proposition. -/
theorem outP_iff (nid : ℤ) (e : AlgorithmEdge) :
    (e.from_node_id == nid && e.is_active) = true ↔
      (e.from_node_id = nid ∧ e.is_active = true) := by
  simp [Bool.and_eq_true]

/-- C8: get_outgoing_edges_from_node returns exactly the active edges with
the given from_node_id, sorted by ascending order_index, and returns the
empty sequence (not an error) when the node has no such edges. -/
theorem outgoing_edges_spec (db : Db) (nid : ℤ) :
    (∀ e, e ∈ get_outgoing_edges_from_node db nid ↔
      (e ∈ db.edges ∧ e.from_node_id = nid ∧ e.is_active = true)) ∧
    List.Sorted edgeIdxLe (get_outgoing_edges_from_node db nid) ∧
    ((∀ e ∈ db.edges, ¬(e.from_node_id = nid ∧ e.is_active = true)) →
      get_outgoing_edges_from_node db nid = []) := by
  refine ⟨?_, ?_, ?_⟩
  · intro e
    unfold get_outgoing_edges_from_node
    rw [(List.perm_insertionSort edgeIdxLe _).mem_iff, List.mem_filter, outP_iff]
  · exact List.sorted_insertionSort edgeIdxLe _
  · intro h
    unfold get_outgoing_edges_from_node
    have : db.edges.filter (fun e => e.from_node_id == nid && e.is_active) = [] := by
      rw [List.filter_eq_nil_iff]
      intro e he
      intro hp
      exact h e he ((outP_iff nid e).mp hp)
    rw [this]
    rfl

/-- Witness for C8: a node with no outgoing edges yields the empty list. -/
theorem outgoing_edges_spec_witness :
    get_outgoing_edges_from_node ⟨[], [], [⟨1, 1, 5, 6, 0, true⟩]⟩ 99 = [] :=
  (outgoing_edges_spec ⟨[], [], [⟨1, 1, 5, 6, 0, true⟩]⟩ 99).2.2 (by decide)

/-- C10: incrementing the view or usage counter of an algorithm id that
does not exist returns None and leaves the stored state unchanged. -/
theorem increment_missing_id_noop (db : Db) (now : ℕ) (aid : ℤ)
    (h : get_algorithm_by_id db aid = Option.none) :
    increment_algorithm_view_count db now aid = (db, Option.none) ∧
    increment_algorithm_usage_count db now aid = (db, Option.none) := by
  constructor
  · unfold increment_algorithm_view_count
    rw [h]
  · unfold increment_algorithm_usage_count
    rw [h]

/-- Witness for C10 at an empty database and id 1. -/
theorem increment_missing_id_noop_witness :
    increment_algorithm_view_count ⟨[], [], []⟩ 7 1 = (⟨[], [], []⟩, Option.none) ∧
    increment_algorithm_usage_count ⟨[], [], []⟩ 7 1 = (⟨[], [], []⟩, Option.none) :=
  increment_missing_id_noop ⟨[], [], []⟩ 7 1 (by decide)

theorem bumpFirst_cons (f : Algorithm → Algorithm) (aid : ℤ) (a : Algorithm)
    (rest : List Algorithm) :
    bumpFirst f aid (a :: rest) =
      (if a.id = aid then f a :: rest else a :: bumpFirst f aid rest) := rfl

theorem head_filter_eq_find {α : Type} (p : α → Bool) (l : List α) :
    (l.filter p).head? = l.find? p := by
  induction l with
  | nil => rfl
  | cons a rest ih =>
    by_cases h : p a = true
    · rw [List.filter_cons_of_pos h, List.find?_cons_of_pos _ h]
      rfl
    · rw [List.filter_cons_of_neg (by simpa using h), List.find?_cons_of_neg _ h, ih]

theorem bumpFirst_filter_head_same (f : Algorithm → Algorithm)
    (hf : ∀ a, (f a).id = a.id) (aid : ℤ) (l : List Algorithm) :
    ((bumpFirst f aid l).filter (fun a => a.id == aid)).head? =
      ((l.filter (fun a => a.id == aid)).head?).map f := by
  rw [head_filter_eq_find, head_filter_eq_find]
  induction l with
  | nil => rfl
  | cons a rest ih =>
    rw [bumpFirst_cons]
    by_cases h : a.id = aid
    · rw [if_pos h]
      have hfa : ((f a).id == aid) = true := by rw [hf a, h, beq_self_eq_true]
      have ha : (a.id == aid) = true := by rw [h, beq_self_eq_true]
      rw [@List.find?_cons_of_pos _ (fun x => x.id == aid) (f a) rest hfa,
        @List.find?_cons_of_pos _ (fun x => x.id == aid) a rest ha]
      rfl
    · rw [if_neg h]
      have ha : ¬((a.id == aid) = true) := by
        rw [beq_eq_false_iff_ne.mpr h]
        exact Bool.false_ne_true
      rw [@List.find?_cons_of_neg _ (fun x => x.id == aid) a (bumpFirst f aid rest) ha,
        @List.find?_cons_of_neg _ (fun x => x.id == aid) a rest ha, ih]

theorem bumpFirst_filter_head_other (f : Algorithm → Algorithm)
    (hf : ∀ a, (f a).id = a.id) (aid aid2 : ℤ) (hne : aid2 ≠ aid) (l : List Algorithm) :
    ((bumpFirst f aid l).filter (fun a => a.id == aid2)).head? =
      (l.filter (fun a => a.id == aid2)).head? := by
  rw [head_filter_eq_find, head_filter_eq_find]
  induction l with
  | nil => rfl
  | cons a rest ih =>
    rw [bumpFirst_cons]
    by_cases h : a.id = aid
    · rw [if_pos h]
      have h2 : ¬(((f a).id == aid2) = true) := by
        rw [hf a, h, beq_eq_false_iff_ne.mpr (Ne.symm hne)]
        exact Bool.false_ne_true
      have h3 : ¬((a.id == aid2) = true) := by
        rw [h, beq_eq_false_iff_ne.mpr (Ne.symm hne)]
        exact Bool.false_ne_true
      rw [@List.find?_cons_of_neg _ (fun x => x.id == aid2) (f a) rest h2,
        @List.find?_cons_of_neg _ (fun x => x.id == aid2) a rest h3]
    · rw [if_neg h]
      by_cases ha2 : (a.id == aid2) = true
      · rw [@List.find?_cons_of_pos _ (fun x => x.id == aid2) a (bumpFirst f aid rest) ha2,
          @List.find?_cons_of_pos _ (fun x => x.id == aid2) a rest ha2]
      · rw [@List.find?_cons_of_neg _ (fun x => x.id == aid2) a (bumpFirst f aid rest) ha2,
          @List.find?_cons_of_neg _ (fun x => x.id == aid2) a rest ha2, ih]

theorem getById_incUsage (db : Db) (now : ℕ) (aid aid2 : ℤ) :
    get_algorithm_by_id (increment_algorithm_usage_count db now aid).1 aid2 =
      (if aid2 = aid then ((get_algorithm_by_id db aid2).map (bumpUsage now))
       else get_algorithm_by_id db aid2) := by
  unfold increment_algorithm_usage_count
  cases hc : get_algorithm_by_id db aid with
  | none =>
    dsimp only
    by_cases he : aid2 = aid
    · subst he
      rw [if_pos rfl, hc]
      rfl
    · rw [if_neg he]
  | some alg =>
    dsimp only
    by_cases he : aid2 = aid
    · subst he
      rw [if_pos rfl]
      exact bumpFirst_filter_head_same (bumpUsage now) (fun a => rfl) aid2 db.algorithms
    · rw [if_neg he]
      exact bumpFirst_filter_head_other (bumpUsage now) (fun a => rfl) aid aid2 he db.algorithms

theorem getById_incView (db : Db) (now : ℕ) (aid aid2 : ℤ) :
    get_algorithm_by_id (increment_algorithm_view_count db now aid).1 aid2 =
      (if aid2 = aid then ((get_algorithm_by_id db aid2).map (bumpView now))
       else get_algorithm_by_id db aid2) := by
  unfold increment_algorithm_view_count
  cases hc : get_algorithm_by_id db aid with
  | none =>
    dsimp only
    by_cases he : aid2 = aid
    · subst he
      rw [if_pos rfl, hc]
      rfl
    · rw [if_neg he]
  | some alg =>
    dsimp only
    by_cases he : aid2 = aid
    · subst he
      rw [if_pos rfl]
      exact bumpFirst_filter_head_same (bumpView now) (fun a => rfl) aid2 db.algorithms
    · rw [if_neg he]
      exact bumpFirst_filter_head_other (bumpView now) (fun a => rfl) aid aid2 he db.algorithms

theorem fullFetch_state (db : Db) (now : ℕ) (aid : ℤ) :
    (get_algorithm_full_endpoint db now aid).1 =
      (increment_algorithm_usage_count db now aid).1 := by
  unfold get_algorithm_full_endpoint get_algorithm_with_nodes_and_edges
  cases hc : get_algorithm_by_id db aid with
  | none =>
    dsimp only
    unfold increment_algorithm_usage_count
    rw [hc]
  | some alg => dsimp only

theorem plainGet_state (db : Db) (now : ℕ) (aid : ℤ) :
    (get_algorithm_endpoint db now aid).1 =
      (increment_algorithm_view_count db now aid).1 := by
  unfold get_algorithm_endpoint
  cases hc : get_algorithm_by_id db aid with
  | none =>
    dsimp only
    unfold increment_algorithm_view_count
    rw [hc]
  | some alg => dsimp only

/-- C6: for a stored algorithm, one full fetch increments usage_count by
exactly 1 and two consecutive full fetches by exactly 2; the plain
get-algorithm endpoint leaves usage_count unchanged; and no core operation
ever decreases any stored algorithm's usage_count. -/
theorem usage_count_effects (db : Db) (n1 n2 : ℕ) (aid : ℤ) (alg : Algorithm)
    (h : get_algorithm_by_id db aid = Option.some alg) :
    usageCountOf (get_algorithm_full_endpoint db n1 aid).1 aid =
      Option.some (alg.usage_count + 1) ∧
    usageCountOf (get_algorithm_full_endpoint
        (get_algorithm_full_endpoint db n1 aid).1 n2 aid).1 aid =
      Option.some (alg.usage_count + 2) ∧
    usageCountOf (get_algorithm_endpoint db n1 aid).1 aid = Option.some alg.usage_count ∧
    (∀ (op : CoreOp) (db2 : Db) (aid2 : ℤ) (a1 a2 : Algorithm),
      get_algorithm_by_id db2 aid2 = Option.some a1 →
      get_algorithm_by_id (applyCoreOp op db2) aid2 = Option.some a2 →
      a1.usage_count ≤ a2.usage_count) := by
  have h1 : get_algorithm_by_id (get_algorithm_full_endpoint db n1 aid).1 aid =
      Option.some (bumpUsage n1 alg) := by
    rw [fullFetch_state, getById_incUsage, if_pos rfl, h]
    rfl
  have h2 : get_algorithm_by_id (get_algorithm_full_endpoint
      (get_algorithm_full_endpoint db n1 aid).1 n2 aid).1 aid =
      Option.some (bumpUsage n2 (bumpUsage n1 alg)) := by
    rw [fullFetch_state, getById_incUsage, if_pos rfl, h1]
    rfl
  refine ⟨?_, ?_, ?_, ?_⟩
  · rw [usageCountOf, h1]
    rfl
  · rw [usageCountOf, h2]
    simp [bumpUsage]
    omega
  · rw [usageCountOf, plainGet_state, getById_incView, if_pos rfl, h]
    rfl
  · intro op db2 aid2 a1 a2 hm1 hm2
    cases op with
    | fullFetch now aid3 =>
      rw [applyCoreOp, fullFetch_state, getById_incUsage] at hm2
      by_cases he : aid2 = aid3
      · rw [if_pos he, hm1] at hm2
        have hm3 := Option.some.inj
          (show Option.some (bumpUsage now a1) = Option.some a2 from hm2)
        subst hm3
        have hb : (bumpUsage now a1).usage_count = a1.usage_count + 1 := rfl
        rw [hb]
        omega
      · rw [if_neg he, hm1] at hm2
        have hm3 := Option.some.inj hm2
        subst hm3
        exact le_refl _
    | plainGet now aid3 =>
      rw [applyCoreOp, plainGet_state, getById_incView] at hm2
      by_cases he : aid2 = aid3
      · rw [if_pos he, hm1] at hm2
        have hm3 := Option.some.inj
          (show Option.some (bumpView now a1) = Option.some a2 from hm2)
        subst hm3
        have hb : (bumpView now a1).usage_count = a1.usage_count := rfl
        rw [hb]
      · rw [if_neg he, hm1] at hm2
        have hm3 := Option.some.inj hm2
        subst hm3
        exact le_refl _
    | incView now aid3 =>
      rw [applyCoreOp, getById_incView] at hm2
      by_cases he : aid2 = aid3
      · rw [if_pos he, hm1] at hm2
        have hm3 := Option.some.inj
          (show Option.some (bumpView now a1) = Option.some a2 from hm2)
        subst hm3
        have hb : (bumpView now a1).usage_count = a1.usage_count := rfl
        rw [hb]
      · rw [if_neg he, hm1] at hm2
        have hm3 := Option.some.inj hm2
        subst hm3
        exact le_refl _
    | incUsage now aid3 =>
      rw [applyCoreOp, getById_incUsage] at hm2
      by_cases he : aid2 = aid3
      · rw [if_pos he, hm1] at hm2
        have hm3 := Option.some.inj
          (show Option.some (bumpUsage now a1) = Option.some a2 from hm2)
        subst hm3
        have hb : (bumpUsage now a1).usage_count = a1.usage_count + 1 := rfl
        rw [hb]
        omega
      · rw [if_neg he, hm1] at hm2
        have hm3 := Option.some.inj hm2
        subst hm3
        exact le_refl _
    | resolveStart aid3 =>
      rw [applyCoreOp, hm1] at hm2
      have hm3 := Option.some.inj hm2
      subst hm3
      exact le_refl _
    | listOutgoing nid =>
      rw [applyCoreOp, hm1] at hm2
      have hm3 := Option.some.inj hm2
      subst hm3
      exact le_refl _

/-- Witness for C6 on a one-algorithm database: full fetches take the
usage counter from 0 to 1 and then 2; the plain get leaves it at 0. -/
theorem usage_count_effects_witness :
    usageCountOf (get_algorithm_full_endpoint
        ⟨[⟨1, Option.none, 0, 0, 0⟩], [], []⟩ 5 1).1 1 = Option.some 1 ∧
    usageCountOf (get_algorithm_full_endpoint (get_algorithm_full_endpoint
        ⟨[⟨1, Option.none, 0, 0, 0⟩], [], []⟩ 5 1).1 6 1).1 1 = Option.some 2 ∧
    usageCountOf (get_algorithm_endpoint
        ⟨[⟨1, Option.none, 0, 0, 0⟩], [], []⟩ 5 1).1 1 = Option.some 0 := by
  obtain ⟨w1, w2, w3, _⟩ :=
    usage_count_effects ⟨[⟨1, Option.none, 0, 0, 0⟩], [], []⟩ 5 6 1
      ⟨1, Option.none, 0, 0, 0⟩ (by decide)
  exact ⟨w1, w2, w3⟩

/-- C7 (evidence for the code bug): calculate_wells_pe called with the
non-boolean flag "yes" — the exact input the repository's own test
test_calculator_error_handling expects to raise TypeError — does not fail:
the if statement applies Python truthiness to the non-empty string, counts
its 3 points, and the call returns a score 3.0 Low result. -/
theorem wells_pe_nonbool_returns_result :
    calculate_wells_pe (PyVal.pystr "yes") (PyVal.pybool false) (PyVal.pybool false)
      (PyVal.pybool false) (PyVal.pybool false) (PyVal.pybool false) (PyVal.pybool false) =
      Except.ok ⟨3, RiskLevel.LOW,
        "Probabilidad baja de EP (3.0 puntos). Probabilidad < 12%",
        "Considerar dímero D. Si negativo, EP poco probable."⟩ := by
  have h1 : (PyVal.pystr "yes").truthy = true := rfl
  have h2 : (PyVal.pybool false).truthy = false := rfl
  rw [calculate_wells_pe, h1, h2]
  norm_num [wellsResult, pyFloatStr, fmtTenths]
  rfl
